import Mathlib

/-
Verification of two brave-core components against their specification:
(a) the ledger database table helper `DatabaseServerPublisherInfo`
    (bat/ledger/internal/database/database_server_publisher_info.cc), and
(b) the Binance exchange widget service `BinanceService`
    (components/binance/browser/binance_service.cc).

The embedding is shallow: a database transaction is the ordered list of
commands the code appends to it, submitting a transaction to the host's
`RunDBTransaction` is recorded as a value, and the asynchronous completion
callbacks are modelled as the returned values of the completion handlers.
External host collaborators that are not part of these sources (OSCrypt
encryption, base64 decoding of preferences, the JSON response parsers, the
nested banner store) are modelled as explicit function arguments, so the
theorems quantify over every behaviour those collaborators can have.
Standard algorithms the code invokes (SHA-256, base64 encoding) are embedded
by their published definitions.
-/

set_option maxRecDepth 100000

namespace BraveLedger

/-- A value bound to a parameter of a SQL command (the typed
`Bind*` helpers used on `ledger::DBCommand`). -/
inductive DBValue where
  | intVal (i : Int)
  | boolVal (b : Bool)
  | stringVal (s : String)
deriving Repr, DecidableEq

/-- `ledger::DBCommand::Type` (the variants this file uses). -/
inductive DBCommandType where
  | execute
  | run
  | read
deriving Repr, DecidableEq

/-- `ledger::DBCommand::RecordBindingType`. -/
inductive RecordBindingType where
  | intType
  | boolType
  | stringType
deriving Repr, DecidableEq

/-- `ledger::DBCommand`: one SQL statement of a transaction, with its
parameter bindings and, for reads, the expected column types. -/
structure DBCommand where
  type : DBCommandType
  command : String
  bindings : List (Nat × DBValue) := []
  record_bindings : List RecordBindingType := []
deriving Repr, DecidableEq

/-- `ledger::DBTransaction`: the ordered batch of commands executed as a
unit. -/
structure DBTransaction where
  commands : List DBCommand := []
deriving Repr, DecidableEq

/-- `ledger::DBCommandResponse::Status`. -/
inductive DBStatus where
  | ok
  | initializationError
  | transactionError
  | commandError
  | responseError
deriving Repr, DecidableEq

/-- One row of a read result, as the list of its column values. -/
structure DBRecord where
  fields : List DBValue := []
deriving Repr, DecidableEq

/-- `ledger::DBCommandResponse`: the transaction outcome and the rows the
read command returned. -/
structure DBCommandResponse where
  status : DBStatus
  result : List DBRecord := []
deriving Repr, DecidableEq

/-- The `table_name_` constant of database_server_publisher_info.cc. -/
def table_name_ : String := "server_publisher_info"

/-- Modelled from the spec: `ledger::PublisherBanner` is the nested banner
record persisted by the sibling banner store, whose sources are not included
here; it is embedded as an abstract record whose default value is the
freshly constructed (`PublisherBanner::New()`) empty banner. -/
structure PublisherBanner where
  data : List (String × String) := []
deriving Repr, DecidableEq

/-- `ledger::PublisherBanner::New()`: a freshly constructed empty banner. -/
def PublisherBanner.new : PublisherBanner := {}

/-- `ledger::ServerPublisherInfo`: key, payout-eligibility status, exclusion
flag, payout address, and the optional owned banner. -/
structure ServerPublisherInfo where
  publisher_key : String
  status : Int
  excluded : Bool
  address : String
  banner : Option PublisherBanner := none
deriving Repr, DecidableEq

/-- Modelled from the spec: the nested banner store collaborator
(`DatabaseServerPublisherBanner`, whose sources are not included here).
`migrate` appends that store's migration commands for a target version and
reports success or failure; `upsertCommand` is the banner upsert command it
appends for a record that carries a banner. -/
structure BannerStore where
  migrate : DBTransaction → Int → Bool × DBTransaction
  upsertCommand : ServerPublisherInfo → DBCommand

/-- `DatabaseServerPublisherInfo::CreateTableV7`: appends the CREATE TABLE
command and reports success. -/
def CreateTableV7 (transaction : DBTransaction) : Bool × DBTransaction :=
  let query := "CREATE TABLE " ++ table_name_ ++ " " ++
    "(" ++
    "publisher_key LONGVARCHAR PRIMARY KEY NOT NULL UNIQUE," ++
    "status INTEGER DEFAULT 0 NOT NULL," ++
    "excluded INTEGER DEFAULT 0 NOT NULL," ++
    "address TEXT NOT NULL" ++
    ")"
  (true, { transaction with
    commands := transaction.commands ++ [{ type := .execute, command := query }] })

/-- Modelled from the spec: `DropTable` (database_util, not included in the
sources): appends the command dropping the named table and reports
success. -/
def DropTable (transaction : DBTransaction) (table : String) : Bool × DBTransaction :=
  (true, { transaction with
    commands := transaction.commands ++
      [{ type := .execute, command := "DROP TABLE IF EXISTS " ++ table }] })

/-- Modelled from the spec: `InsertIndex` (database_util, not included in
the sources): appends the command creating the index on the key column and
reports success. -/
def InsertIndex (transaction : DBTransaction) (table key : String) :
    Bool × DBTransaction :=
  (true, { transaction with
    commands := transaction.commands ++
      [{ type := .execute,
         command := "CREATE INDEX index_" ++ table ++ "_" ++ key ++ " ON " ++
           table ++ " (" ++ key ++ ")" }] })

/-- `DatabaseServerPublisherInfo::CreateIndexV7`. -/
def CreateIndexV7 (transaction : DBTransaction) : Bool × DBTransaction :=
  InsertIndex transaction table_name_ "publisher_key"

/-- `DatabaseServerPublisherInfo::MigrateToV7`: drop the table, recreate the
table and its index, then migrate the nested banner store to version 7,
stopping with failure at the first failing step. -/
def MigrateToV7 (banner_ : BannerStore) (transaction : DBTransaction) :
    Bool × DBTransaction :=
  let (ok, transaction) := DropTable transaction table_name_
  if !ok then (false, transaction) else
  let (ok, transaction) := CreateTableV7 transaction
  if !ok then (false, transaction) else
  let (ok, transaction) := CreateIndexV7 transaction
  if !ok then (false, transaction) else
  banner_.migrate transaction 7

/-- `DatabaseServerPublisherInfo::MigrateToV15`: migrate the nested banner
store only. -/
def MigrateToV15 (banner_ : BannerStore) (transaction : DBTransaction) :
    Bool × DBTransaction :=
  banner_.migrate transaction 15

/-- `DatabaseServerPublisherInfo::Migrate`: null transaction fails;
otherwise dispatch by exact version match, with unrecognized versions a
no-op success. -/
def Migrate (banner_ : BannerStore) (transaction : Option DBTransaction)
    (target : Int) : Bool × Option DBTransaction :=
  match transaction with
  | none => (false, none)
  | some t =>
    if target = 7 then
      let r := MigrateToV7 banner_ t
      (r.1, some r.2)
    else if target = 15 then
      let r := MigrateToV15 banner_ t
      (r.1, some r.2)
    else
      (true, some t)

/-- The insert-or-replace statement of
`DatabaseServerPublisherInfo::InsertOrUpdate`. -/
def upsertQuery : String :=
  "INSERT OR REPLACE INTO " ++ table_name_ ++ " " ++
  "(publisher_key, status, excluded, address) " ++
  "VALUES (?, ?, ?, ?)"

/-- The single RUN command `InsertOrUpdate` builds for a record, binding all
four columns. -/
def upsertCommand (info : ServerPublisherInfo) : DBCommand :=
  { type := .run
    command := upsertQuery
    bindings := [(0, .stringVal info.publisher_key), (1, .intVal info.status),
                 (2, .boolVal info.excluded), (3, .stringVal info.address)] }

/-- `DatabaseServerPublisherInfo::InsertOrUpdate`: a no-op on a null record,
otherwise appends the record's insert-or-replace command to the caller's
transaction. -/
def InsertOrUpdate (transaction : DBTransaction)
    (info : Option ServerPublisherInfo) : DBTransaction :=
  match info with
  | none => transaction
  | some info =>
    { transaction with commands := transaction.commands ++ [upsertCommand info] }

/-- The DELETE command `ClearAndInsertList` starts its transaction with. -/
def deleteAllCommand : DBCommand :=
  { type := .execute, command := "DELETE FROM " ++ table_name_ }

/-- The body of `ClearAndInsertList`'s loop: skip null records, append each
record's upsert and, when the record carries a banner, the banner store's
upsert. -/
def clearAndInsertStep (banner_ : BannerStore) (transaction : DBTransaction)
    (info : Option ServerPublisherInfo) : DBTransaction :=
  match info with
  | none => transaction
  | some info =>
    let transaction := InsertOrUpdate transaction (some info)
    if info.banner.isSome then
      { transaction with
        commands := transaction.commands ++ [banner_.upsertCommand info] }
    else transaction

/-- `DatabaseServerPublisherInfo::ClearAndInsertList`: builds one
transaction opening with the DELETE command, returns after submitting it
when the list is empty, and otherwise loops over the list before submitting.
The returned list holds the transactions passed to `RunDBTransaction`, in
order. -/
def ClearAndInsertList (banner_ : BannerStore)
    (list : List (Option ServerPublisherInfo)) : List DBTransaction :=
  let transaction : DBTransaction := { commands := [deleteAllCommand] }
  if list.length = 0 then
    [transaction]
  else
    [list.foldl (clearAndInsertStep banner_) transaction]

/-- Modelled from the spec: `OnResultCallback` (database_util, not included
in the sources): forwards the transaction outcome to the completion callback
exactly once, as success when the response is present with status OK and as
failure otherwise. -/
def OnResultCallback (response : Option DBCommandResponse) : Bool :=
  match response with
  | none => false
  | some r => r.status = DBStatus.ok

/-- Modelled from the spec: `GetIntColumn` (database_util, not included in
the sources): the integer value of column `i` of a row. -/
def GetIntColumn (record : DBRecord) (i : Nat) : Int :=
  match record.fields.getD i (.intVal 0) with
  | .intVal v => v
  | _ => 0

/-- Modelled from the spec: `GetBoolColumn` (database_util, not included in
the sources): the boolean value of column `i` of a row. -/
def GetBoolColumn (record : DBRecord) (i : Nat) : Bool :=
  match record.fields.getD i (.boolVal false) with
  | .boolVal v => v
  | _ => false

/-- Modelled from the spec: `GetStringColumn` (database_util, not included
in the sources): the string value of column `i` of a row. -/
def GetStringColumn (record : DBRecord) (i : Nat) : String :=
  match record.fields.getD i (.stringVal "") with
  | .stringVal v => v
  | _ => ""

/-- `DatabaseServerPublisherInfo::OnGetRecord`: a missing response, a
non-OK status, or a result-set size different from one yields an absent
record; otherwise the record is composed from the row's columns, the queried
key and the banner. -/
def OnGetRecord (response : Option DBCommandResponse) (publisher_key : String)
    (banner : PublisherBanner) : Option ServerPublisherInfo :=
  match response with
  | none => none
  | some response =>
    if response.status ≠ DBStatus.ok then none
    else if response.result.length ≠ 1 then none
    else
      match response.result with
      | record :: _ =>
        some { publisher_key := publisher_key
               status := GetIntColumn record 0
               excluded := GetBoolColumn record 1
               address := GetStringColumn record 2
               banner := some banner }
      | [] => none

/-- The SELECT command `OnGetRecordBanner` builds for a key. -/
def selectCommand (publisher_key : String) : DBCommand :=
  { type := .read
    command := "SELECT status, excluded, address " ++
      "FROM " ++ table_name_ ++ " WHERE publisher_key=?"
    bindings := [(0, .stringVal publisher_key)]
    record_bindings := [.intType, .boolType, .stringType] }

/-- `DatabaseServerPublisherInfo::OnGetRecordBanner`: builds the SELECT
transaction, replaces an absent banner by a freshly constructed one, and
submits the transaction with `OnGetRecord` as its completion; the result is
the submitted transaction together with the completion it registered. -/
def OnGetRecordBanner (banner : Option PublisherBanner) (publisher_key : String) :
    DBTransaction × (Option DBCommandResponse → Option ServerPublisherInfo) :=
  let transaction : DBTransaction := { commands := [selectCommand publisher_key] }
  let banner :=
    match banner with
    | none => PublisherBanner.new
    | some b => b
  (transaction, fun response => OnGetRecord response publisher_key banner)

/-- The commands one list entry contributes to `ClearAndInsertList`'s
transaction: its upsert and, when it carries a banner, the banner store's
upsert. -/
def entryCommands (banner_ : BannerStore) (info : ServerPublisherInfo) :
    List DBCommand :=
  upsertCommand info ::
    (if info.banner.isSome then [banner_.upsertCommand info] else [])

/-- The transaction state `MigrateToV7` hands to the banner store's
migration: the caller's commands followed by the drop of
server_publisher_info and the recreation of the table and of its index on
publisher_key. -/
def migrateV7Prepared (t : DBTransaction) : DBTransaction :=
  { t with commands := t.commands ++
      [{ type := .execute,
         command := "DROP TABLE IF EXISTS server_publisher_info" },
       { type := .execute,
         command := "CREATE TABLE server_publisher_info " ++
           "(publisher_key LONGVARCHAR PRIMARY KEY NOT NULL UNIQUE," ++
           "status INTEGER DEFAULT 0 NOT NULL," ++
           "excluded INTEGER DEFAULT 0 NOT NULL," ++
           "address TEXT NOT NULL)" },
       { type := .execute,
         command := "CREATE INDEX index_server_publisher_info_publisher_key " ++
           "ON server_publisher_info (publisher_key)" }] }

end BraveLedger

namespace BinanceCrypto

/-- Reduction of a machine word modulo 32 bits. -/
def w32 (x : Nat) : Nat := x % 4294967296

/-- Right rotation of a 32-bit word by `n` bits. -/
def rotr (n x : Nat) : Nat := w32 ((x >>> n) + ((x % 2 ^ n) <<< (32 - n)))

/-- Bitwise complement of a 32-bit word. -/
def compl32 (x : Nat) : Nat := 4294967295 - w32 x

/-- The SHA-256 choice function. -/
def ch (e f g : Nat) : Nat := Nat.xor (Nat.land e f) (Nat.land (compl32 e) g)

/-- The SHA-256 majority function. -/
def maj (a b c : Nat) : Nat :=
  Nat.xor (Nat.xor (Nat.land a b) (Nat.land a c)) (Nat.land b c)

/-- The SHA-256 Σ0 function. -/
def bigSigma0 (x : Nat) : Nat := Nat.xor (Nat.xor (rotr 2 x) (rotr 13 x)) (rotr 22 x)

/-- The SHA-256 Σ1 function. -/
def bigSigma1 (x : Nat) : Nat := Nat.xor (Nat.xor (rotr 6 x) (rotr 11 x)) (rotr 25 x)

/-- The SHA-256 σ0 function. -/
def smallSigma0 (x : Nat) : Nat := Nat.xor (Nat.xor (rotr 7 x) (rotr 18 x)) (x >>> 3)

/-- The SHA-256 σ1 function. -/
def smallSigma1 (x : Nat) : Nat := Nat.xor (Nat.xor (rotr 17 x) (rotr 19 x)) (x >>> 10)

/-- The SHA-256 round constants, written in decimal. -/
def roundK : List Nat :=
  [1116352408, 1899447441, 3049323471, 3921009573, 961987163,
   1508970993, 2453635748, 2870763221, 3624381080, 310598401,
   607225278, 1426881987, 1925078388, 2162078206, 2614888103,
   3248222580, 3835390401, 4022224774, 264347078, 604807628,
   770255983, 1249150122, 1555081692, 1996064986, 2554220882,
   2821834349, 2952996808, 3210313671, 3336571891, 3584528711,
   113926993, 338241895, 666307205, 773529912, 1294757372,
   1396182291, 1695183700, 1986661051, 2177026350, 2456956037,
   2730485921, 2820302411, 3259730800, 3345764771, 3516065817,
   3600352804, 4094571909, 275423344, 430227734, 506948616,
   659060556, 883997877, 958139571, 1322822218, 1537002063,
   1747873779, 1955562222, 2024104815, 2227730452, 2361852424,
   2428436474, 2756734187, 3204031479, 3329325298]

/-- The SHA-256 initial hash value, written in decimal. -/
def initH : List Nat :=
  [1779033703, 3144134277, 1013904242, 2773480762,
   1359893119, 2600822924, 528734635, 1541459225]

/-- Big-endian byte expansion of `x` into `n` bytes. -/
def bytesBE (n x : Nat) : List Nat :=
  (List.range n).map (fun i => x / 256 ^ (n - 1 - i) % 256)

/-- SHA-256 padding: a 0x80 byte, zeros, and the 64-bit big-endian bit
length. -/
def padMessage (msg : List Nat) : List Nat :=
  let padZeros := (119 - msg.length % 64) % 64
  msg ++ [128] ++ List.replicate padZeros 0 ++ bytesBE 8 (8 * msg.length)

/-- The 32-bit word held big-endian at byte offset `i` of `l`. -/
def wordOf (l : List Nat) (i : Nat) : Nat :=
  l.getD i 0 * 16777216 + l.getD (i + 1) 0 * 65536 + l.getD (i + 2) 0 * 256 +
    l.getD (i + 3) 0

/-- The 64-entry message schedule of one 512-bit block. -/
def schedule (block : List Nat) : List Nat :=
  (List.range 48).foldl
    (fun w _ =>
      let i := w.length
      w ++ [w32 (smallSigma1 (w.getD (i - 2) 0) + w.getD (i - 7) 0 +
        smallSigma0 (w.getD (i - 15) 0) + w.getD (i - 16) 0)])
    block

/-- One SHA-256 compression round. -/
def round (k wi : Nat) (st : Nat × Nat × Nat × Nat × Nat × Nat × Nat × Nat) :
    Nat × Nat × Nat × Nat × Nat × Nat × Nat × Nat :=
  let (a, b, c, d, e, f, g, h) := st
  let t1 := w32 (h + bigSigma1 e + ch e f g + k + wi)
  let t2 := w32 (bigSigma0 a + maj a b c)
  (w32 (t1 + t2), a, b, c, w32 (d + t1), e, f, g)

/-- Compression of one block into the running hash `hs`. -/
def compress (hs : List Nat) (block : List Nat) : List Nat :=
  let w := schedule block
  let st0 := (hs.getD 0 0, hs.getD 1 0, hs.getD 2 0, hs.getD 3 0,
              hs.getD 4 0, hs.getD 5 0, hs.getD 6 0, hs.getD 7 0)
  let stf := (List.range 64).foldl
    (fun st i => round (roundK.getD i 0) (w.getD i 0) st) st0
  let (a, b, c, d, e, f, g, h) := stf
  [w32 (hs.getD 0 0 + a), w32 (hs.getD 1 0 + b), w32 (hs.getD 2 0 + c),
   w32 (hs.getD 3 0 + d), w32 (hs.getD 4 0 + e), w32 (hs.getD 5 0 + f),
   w32 (hs.getD 6 0 + g), w32 (hs.getD 7 0 + h)]

/-- `crypto::SHA256HashString`, by the published definition of SHA-256: the
32-byte digest of a byte sequence. -/
def sha256 (msg : List Nat) : List Nat :=
  let p := padMessage msg
  let final := (List.range (p.length / 64)).foldl
    (fun hs blk =>
      compress hs ((List.range 16).map (fun i => wordOf p (64 * blk + 4 * i))))
    initH
  final.foldr (fun x acc => bytesBE 4 x ++ acc) []

/-- The standard base64 alphabet. -/
def base64Chars : List Char :=
  "ABCDEFGHIJKLMNOPQRSTUVWXYZabcdefghijklmnopqrstuvwxyz0123456789+/".data

/-- The base64 digit for a 6-bit value. -/
def base64Char (n : Nat) : Char := base64Chars.getD n 'A'

/-- Standard base64 encoding of a byte stream in groups of three, with `=`
padding on a final short group. -/
def base64Go : List Nat → List Char
  | [] => []
  | [b0] => [base64Char (b0 / 4), base64Char (b0 % 4 * 16), '=', '=']
  | [b0, b1] =>
      [base64Char (b0 / 4), base64Char (b0 % 4 * 16 + b1 / 16),
       base64Char (b1 % 16 * 4), '=']
  | b0 :: b1 :: b2 :: rest =>
      base64Char (b0 / 4) :: base64Char (b0 % 4 * 16 + b1 / 16) ::
      base64Char (b1 % 16 * 4 + b2 / 64) :: base64Char (b2 % 64) :: base64Go rest

/-- `base::Base64Encode`, by the published definition of standard base64
encoding of a byte string. -/
def Base64Encode (bytes : List Nat) : String := ⟨base64Go bytes⟩

end BinanceCrypto

namespace BinanceService

open BinanceCrypto

/-- `std::replace` over the characters of a string: every occurrence of `a`
becomes `b`. -/
def replaceChar (a b : Char) (s : String) : String :=
  ⟨s.data.map (fun c => if c = a then b else c)⟩

/-- The trailing-`=` erasure of `GetCodeChallenge`: `erase` from the base of
the first character from the end that is not `=`, i.e. removal of the
trailing run of `=` characters. -/
def stripTrailingEquals (s : String) : String :=
  ⟨(s.data.reverse.dropWhile (fun c => c = '=')).reverse⟩

/-- `BinanceService::GetCodeChallenge`: SHA-256 the verifier bytes, base64
encode the raw digest, replace `+` by `-` and `/` by `_`, and erase the
trailing `=` padding. -/
def GetCodeChallenge (code_verifier : List Nat) : String :=
  let raw := sha256 code_verifier
  let code_challenge := Base64Encode raw
  let code_challenge := replaceChar '+' '-' code_challenge
  let code_challenge := replaceChar '/' '_' code_challenge
  stripTrailingEquals code_challenge

/-- The challenge as the specification words it: the standard base64
encoding of SHA-256 of the verifier with every `+` replaced by `-`, every
`/` replaced by `_`, and all trailing `=` padding characters removed
(base64url without padding). -/
def specCodeChallenge (v : List Nat) : String :=
  ⟨((Base64Encode (sha256 v)).data.map
      (fun c => if c = '+' then '-' else if c = '/' then '_' else c)).reverse.dropWhile
        (fun c => c = '=') |>.reverse⟩

/-- The two preference slots `kBinanceAccessToken` and
`kBinanceRefreshToken`. -/
structure Prefs where
  binanceAccessToken : String := ""
  binanceRefreshToken : String := ""
deriving Repr, DecidableEq

/-- The token-related fields of a `BinanceService`, together with the
preference store it writes through. -/
structure State where
  access_token_ : String := ""
  refresh_token_ : String := ""
  code_challenge_ : String := ""
  code_verifier_ : String := ""
  prefs : Prefs := {}
deriving Repr, DecidableEq

/-- The bytes of a string, one per character (the embedding treats C++
byte strings as character-code sequences). -/
def strBytes (s : String) : List Nat := s.data.map Char.toNat

/-- `base::Base64Encode` applied to a ciphertext string. -/
def Base64EncodeStr (s : String) : String := Base64Encode (strBytes s)

/-- `BinanceService::SetAccessTokens`: assigns both in-memory fields, then
encrypts both tokens (`OSCrypt::EncryptString` modelled as the function
argument, `none` meaning failure); on either encryption failure returns
false without touching the preferences; otherwise base64-encodes both
ciphertexts and writes both preference slots. -/
def SetAccessTokens (encryptString : String → Option String)
    (access_token refresh_token : String) (st : State) : Bool × State :=
  let st := { st with access_token_ := access_token,
                      refresh_token_ := refresh_token }
  match encryptString access_token with
  | none => (false, st)
  | some encrypted_access_token =>
    match encryptString refresh_token with
    | none => (false, st)
    | some encrypted_refresh_token =>
      let encoded_encrypted_access_token := Base64EncodeStr encrypted_access_token
      let encoded_encrypted_refresh_token := Base64EncodeStr encrypted_refresh_token
      (true, { st with prefs :=
        { binanceAccessToken := encoded_encrypted_access_token
          binanceRefreshToken := encoded_encrypted_refresh_token } })

/-- `BinanceService::LoadTokensFromPrefs`: reads both encoded preference
values, base64-decodes both (`base::Base64Decode` modelled as the function
argument), and on success decrypts the access token directly into
`access_token_` and then the refresh token into `refresh_token_`
(`OSCrypt::DecryptString` modelled as the function argument); any decode or
decrypt failure returns false at that point. -/
def LoadTokensFromPrefs (base64Decode decryptString : String → Option String)
    (st : State) : Bool × State :=
  let encoded_encrypted_access_token := st.prefs.binanceAccessToken
  let encoded_encrypted_refresh_token := st.prefs.binanceRefreshToken
  match base64Decode encoded_encrypted_access_token,
        base64Decode encoded_encrypted_refresh_token with
  | some encrypted_access_token, some encrypted_refresh_token =>
    match decryptString encrypted_access_token with
    | none => (false, st)
    | some access =>
      let st := { st with access_token_ := access }
      match decryptString encrypted_refresh_token with
      | none => (false, st)
      | some refresh => (true, { st with refresh_token_ := refresh })
  | _, _ => (false, st)

/-- `BinanceService::OnGetAccountBalances`: parse the body into the balances
map only on a 2xx status (the parser is the function argument, applied to
the out-parameter's initial empty map); the callback value is the map and
the success flag. -/
def OnGetAccountBalances
    (parseBalances : String → List (String × String) → List (String × String))
    (status : Int) (body : String) : List (String × String) × Bool :=
  let balances : List (String × String) := []
  let success := decide (200 ≤ status ∧ status ≤ 299)
  let balances := if success then parseBalances body balances else balances
  (balances, success)

/-- `BinanceService::OnGetTickerPrice`: the price out-parameter starts as
"0.00" and is passed to the parser only on a 2xx status. -/
def OnGetTickerPrice (parsePrice : String → String → String)
    (status : Int) (body : String) : String :=
  let symbol_pair_price := "0.00"
  if 200 ≤ status ∧ status ≤ 299 then parsePrice body symbol_pair_price
  else symbol_pair_price

/-- `BinanceService::OnGetTickerVolume`: the volume out-parameter starts as
"0" and is passed to the parser only on a 2xx status. -/
def OnGetTickerVolume (parseVolume : String → String → String)
    (status : Int) (body : String) : String :=
  let symbol_pair_volume := "0"
  if 200 ≤ status ∧ status ≤ 299 then parseVolume body symbol_pair_volume
  else symbol_pair_volume

/-- `BinanceService::OnGetConvertQuote`: the four out-parameters (quote id,
price, fee, total) start empty and are passed to the parser only on a 2xx
status. -/
def OnGetConvertQuote
    (parseQuote : String → String × String × String × String →
      String × String × String × String)
    (status : Int) (body : String) : String × String × String × String :=
  let init : String × String × String × String := ("", "", "", "")
  if 200 ≤ status ∧ status ≤ 299 then parseQuote body init else init

/-- `BinanceService::OnGetDepositInfo`: the address and url out-parameters
start empty and are passed to the parser only on a 2xx status; the callback
value carries both with the success flag. -/
def OnGetDepositInfo (parseDeposit : String → String × String → String × String)
    (status : Int) (body : String) : String × String × Bool :=
  let success := decide (200 ≤ status ∧ status ≤ 299)
  let r := if success then parseDeposit body ("", "") else ("", "")
  (r.1, r.2, success)

/-- `BinanceService::OnConfirmConvert`: the error message starts empty and
the success status false; the parser fills both only on a 2xx status; the
callback value is the success status then the error message. -/
def OnConfirmConvert (parseConfirm : String → String × Bool → String × Bool)
    (status : Int) (body : String) : Bool × String :=
  let init : String × Bool := ("", false)
  let r := if 200 ≤ status ∧ status ≤ 299 then parseConfirm body init else init
  (r.2, r.1)

/-- `BinanceService::OnGetConvertAssets`: the assets map starts empty and is
passed to the parser only on a 2xx status. -/
def OnGetConvertAssets
    (parseAssets : String → List (String × List String) → List (String × List String))
    (status : Int) (body : String) : List (String × List String) :=
  let assets : List (String × List String) := []
  if 200 ≤ status ∧ status ≤ 299 then parseAssets body assets else assets

/-- `BinanceService::OnRevokeToken`: success starts false and is parsed from
the body only on a 2xx status; on success the PKCE fields are cleared and
`SetAccessTokens` is called with two empty strings; the callback value is
the success flag. -/
def OnRevokeToken (parseRevoke : String → Bool → Bool)
    (encryptString : String → Option String)
    (status : Int) (body : String) (st : State) : State × Bool :=
  let success := false
  let success :=
    if 200 ≤ status ∧ status ≤ 299 then parseRevoke body success else success
  if success then
    let st := { st with code_challenge_ := "", code_verifier_ := "" }
    let r := SetAccessTokens encryptString "" "" st
    (r.2, success)
  else
    (st, success)

end BinanceService

namespace BraveLedger

/-- The loop of `ClearAndInsertList` appends exactly the per-entry commands
of the non-null entries, in list order. -/
theorem foldl_clearAndInsertStep (banner_ : BannerStore)
    (list : List (Option ServerPublisherInfo)) (t : DBTransaction) :
    (list.foldl (clearAndInsertStep banner_) t).commands =
      t.commands ++ (list.filterMap id).flatMap (entryCommands banner_) := by
  induction list generalizing t with
  | nil => simp
  | cons head tail ih =>
    cases head with
    | none =>
      simpa [clearAndInsertStep] using ih t
    | some info =>
      by_cases h : info.banner.isSome
      · simp [clearAndInsertStep, InsertOrUpdate, h, ih, entryCommands,
          List.append_assoc]
      · simp [clearAndInsertStep, InsertOrUpdate, h, ih, entryCommands,
          List.append_assoc]

/-- C1: `ClearAndInsertList` submits exactly one transaction, whose first
command deletes all rows of server_publisher_info; on an empty list the
transaction is the delete alone, and otherwise each non-null record
contributes, in list order, its insert-or-replace followed by the banner
store's upsert exactly when the record carries a banner; the completion
forwarded to that single submission reports success exactly when the
transaction response arrives with status OK. -/
theorem clearAndInsertList_spec (banner_ : BannerStore)
    (list : List (Option ServerPublisherInfo)) :
    ClearAndInsertList banner_ list =
      [{ commands := deleteAllCommand ::
          (list.filterMap id).flatMap (entryCommands banner_) }] ∧
    (∀ response : Option DBCommandResponse,
      OnResultCallback response = true ↔
        ∃ r, response = some r ∧ r.status = DBStatus.ok) := by
  constructor
  · unfold ClearAndInsertList
    by_cases hl : list.length = 0
    · rw [List.length_eq_zero] at hl
      subst hl
      simp
    · simp only [hl, if_false]
      have h := foldl_clearAndInsertStep banner_ list { commands := [deleteAllCommand] }
      refine List.cons_eq_cons.mpr ⟨?_, rfl⟩
      cases hfold : list.foldl (clearAndInsertStep banner_) { commands := [deleteAllCommand] } with
      | mk cs =>
        rw [hfold] at h
        simp only [List.singleton_append] at h
        simpa using h
  · intro response
    cases response with
    | none => simp [OnResultCallback]
    | some r =>
      simp [OnResultCallback]

/-- C3: the single-key lookup completion delivers an absent record exactly
when the response is missing, the transaction status is not OK, or the
select returned a number of rows different from one; with exactly one row
and an OK status it delivers the record composed from the row's status,
excluded and address columns, the queried key, and the banner. -/
theorem onGetRecord_spec (response : Option DBCommandResponse)
    (publisher_key : String) (banner : PublisherBanner) :
    (OnGetRecord response publisher_key banner = none ↔
      response = none ∨ ∃ r, response = some r ∧
        (r.status ≠ DBStatus.ok ∨ r.result.length ≠ 1)) ∧
    (∀ r record, response = some r → r.status = DBStatus.ok →
      r.result = [record] →
      OnGetRecord response publisher_key banner =
        some { publisher_key := publisher_key
               status := GetIntColumn record 0
               excluded := GetBoolColumn record 1
               address := GetStringColumn record 2
               banner := some banner }) := by
  constructor
  · cases response with
    | none => simp [OnGetRecord]
    | some r =>
      by_cases hs : r.status = DBStatus.ok
      · by_cases hn : r.result.length = 1
        · cases hres : r.result with
          | nil => rw [hres] at hn; simp at hn
          | cons record rest =>
            simp [OnGetRecord, hs, hn, hres]
        · simp [OnGetRecord, hs, hn]
      · simp [OnGetRecord, hs]
  · intro r record hr hs hres
    subst hr
    simp [OnGetRecord, hs, hres]

/-- C3 witness: a present OK response with a single row composes the record
from the columns, the key, and the banner. -/
theorem onGetRecord_spec_witness :
    OnGetRecord
      (some { status := DBStatus.ok
              result := [{ fields := [.intVal 2, .boolVal true, .stringVal "addr"] }] })
      "pub" PublisherBanner.new =
      some { publisher_key := "pub", status := 2, excluded := true,
             address := "addr", banner := some PublisherBanner.new } := by
  have h := (onGetRecord_spec
    (some { status := DBStatus.ok
            result := [{ fields := [.intVal 2, .boolVal true, .stringVal "addr"] }] })
    "pub" PublisherBanner.new).2 _ _ rfl rfl rfl
  simpa [GetIntColumn, GetBoolColumn, GetStringColumn] using h

/-- C10: whenever the two-phase lookup delivers a present record, its key is
the queried key and its banner field is present: the banner fetched first,
or a freshly constructed empty banner when the banner store returned
none. -/
theorem getRecord_present_invariant (banner : Option PublisherBanner)
    (publisher_key : String) (response : Option DBCommandResponse)
    (info : ServerPublisherInfo)
    (h : (OnGetRecordBanner banner publisher_key).2 response = some info) :
    info.publisher_key = publisher_key ∧ info.banner.isSome = true ∧
    info.banner = some (banner.getD PublisherBanner.new) := by
  cases banner with
  | none =>
    cases response with
    | none => simp [OnGetRecordBanner, OnGetRecord] at h
    | some r =>
      by_cases hs : r.status = DBStatus.ok
      · cases hres : r.result with
        | nil => simp [OnGetRecordBanner, OnGetRecord, hs, hres] at h
        | cons record rest =>
          by_cases hn : r.result.length = 1
          · simp [OnGetRecordBanner, OnGetRecord, hs, hn, hres] at h
            simp [← h]
          · simp [OnGetRecordBanner, OnGetRecord, hs, hn] at h
      · simp [OnGetRecordBanner, OnGetRecord, hs] at h
  | some b =>
    cases response with
    | none => simp [OnGetRecordBanner, OnGetRecord] at h
    | some r =>
      by_cases hs : r.status = DBStatus.ok
      · cases hres : r.result with
        | nil => simp [OnGetRecordBanner, OnGetRecord, hs, hres] at h
        | cons record rest =>
          by_cases hn : r.result.length = 1
          · simp [OnGetRecordBanner, OnGetRecord, hs, hn, hres] at h
            simp [← h]
          · simp [OnGetRecordBanner, OnGetRecord, hs, hn] at h
      · simp [OnGetRecordBanner, OnGetRecord, hs] at h

/-- C10 witness: with no stored banner and a one-row OK response, the
delivered record carries the queried key and a freshly constructed empty
banner. -/
theorem getRecord_present_invariant_witness :
    ({ publisher_key := "pub", status := 2, excluded := true, address := "addr",
       banner := some PublisherBanner.new } : ServerPublisherInfo).publisher_key
        = "pub" ∧
    ({ publisher_key := "pub", status := 2, excluded := true, address := "addr",
       banner := some PublisherBanner.new } : ServerPublisherInfo).banner.isSome
        = true ∧
    ({ publisher_key := "pub", status := 2, excluded := true, address := "addr",
       banner := some PublisherBanner.new } : ServerPublisherInfo).banner
        = some ((none : Option PublisherBanner).getD PublisherBanner.new) :=
  getRecord_present_invariant none "pub"
    (some { status := DBStatus.ok
            result := [{ fields := [.intVal 2, .boolVal true, .stringVal "addr"] }] })
    _ rfl

/-- `MigrateToV7` equals the banner store's migration to version 7 applied
to the transaction with the drop, table and index commands appended. -/
theorem migrateToV7_eq (banner_ : BannerStore) (t : DBTransaction) :
    MigrateToV7 banner_ t = banner_.migrate (migrateV7Prepared t) 7 := by
  show banner_.migrate _ 7 = banner_.migrate _ 7
  congr 1
  simp [migrateV7Prepared, table_name_, List.append_assoc]

/-- C8: `Migrate` dispatches by exact version match: a null transaction
fails; target 7 appends the drop of server_publisher_info, the recreation
of the table and of its index on publisher_key, then hands the transaction
to the nested banner store's migration to version 7 and returns its
success or failure; target 15 only hands the transaction to the banner
store's migration to version 15; every other target appends no commands and
returns success. -/
theorem migrate_spec (banner_ : BannerStore) (t : DBTransaction) (target : Int) :
    Migrate banner_ none target = (false, none) ∧
    (Migrate banner_ (some t) 7 =
      ((banner_.migrate (migrateV7Prepared t) 7).1,
       some (banner_.migrate (migrateV7Prepared t) 7).2)) ∧
    (Migrate banner_ (some t) 15 =
      ((banner_.migrate t 15).1, some (banner_.migrate t 15).2)) ∧
    (target ≠ 7 → target ≠ 15 →
      Migrate banner_ (some t) target = (true, some t)) := by
  refine ⟨rfl, ?_, rfl, ?_⟩
  · show ((MigrateToV7 banner_ t).1, some (MigrateToV7 banner_ t).2) = _
    rw [migrateToV7_eq]
  · intro h7 h15
    simp [Migrate, h7, h15]

/-- C8 witness: an unrecognized target appends no commands and reports
success. -/
theorem migrate_spec_witness :
    Migrate { migrate := fun tr _ => (true, tr), upsertCommand := fun _ => deleteAllCommand }
      (some { commands := [] }) 3 = (true, some { commands := [] }) :=
  (migrate_spec
    { migrate := fun tr _ => (true, tr), upsertCommand := fun _ => deleteAllCommand }
    { commands := [] } 3).2.2.2 (by decide) (by decide)

end BraveLedger

namespace BinanceService

/-- C2: `GetCodeChallenge` is exactly the challenge the specification
describes — the standard base64 encoding of the SHA-256 digest of the
verifier with `+` replaced by `-`, `/` replaced by `_`, and the trailing
`=` padding removed — and it matches the fixed known vector for the
verifier "abc". -/
theorem getCodeChallenge_spec :
    (∀ v : List Nat, GetCodeChallenge v = specCodeChallenge v) ∧
    GetCodeChallenge [97, 98, 99] =
      "ungWv48Bz-pBQUDeXa4iI7ADYaOWF3qctBD_YfIAFa0" := by
  constructor
  · intro v
    unfold GetCodeChallenge specCodeChallenge replaceChar stripTrailingEquals
    have h : ((BinanceCrypto.Base64Encode (BinanceCrypto.sha256 v)).data.map
          (fun c => if c = '+' then '-' else c)).map
            (fun c => if c = '/' then '_' else c) =
        (BinanceCrypto.Base64Encode (BinanceCrypto.sha256 v)).data.map
          (fun c => if c = '+' then '-' else if c = '/' then '_' else c) := by
      rw [List.map_map]
      apply List.map_congr_left
      intro c _
      by_cases h1 : c = '+'
      · subst h1; simp
      · by_cases h2 : c = '/'
        · subst h2; simp [h1]
        · simp [h1, h2]
    dsimp only
    rw [h]
  · decide

/-- C2 witness: evaluation of the embedded pipeline on the fixed vector. -/
theorem getCodeChallenge_spec_witness :
    GetCodeChallenge [97, 98, 99] =
      "ungWv48Bz-pBQUDeXa4iI7ADYaOWF3qctBD_YfIAFa0" :=
  getCodeChallenge_spec.2

end BinanceService

namespace BinanceService

/-- C4 (amended): every decode or decrypt failure makes
`LoadTokensFromPrefs` return false; the in-memory token fields keep their
prior values on a base64-decode failure or an access-token decryption
failure, but when the access token decrypts and only the refresh token
fails to decrypt, `access_token_` already holds the newly decrypted value
while `refresh_token_` keeps its prior value. -/
theorem loadTokensFromPrefs_failure_spec
    (base64Decode decryptString : String → Option String) (st : State) :
    ((base64Decode st.prefs.binanceAccessToken = none ∨
      base64Decode st.prefs.binanceRefreshToken = none) →
        LoadTokensFromPrefs base64Decode decryptString st = (false, st)) ∧
    (∀ ea er, base64Decode st.prefs.binanceAccessToken = some ea →
      base64Decode st.prefs.binanceRefreshToken = some er →
      decryptString ea = none →
        LoadTokensFromPrefs base64Decode decryptString st = (false, st)) ∧
    (∀ ea er access, base64Decode st.prefs.binanceAccessToken = some ea →
      base64Decode st.prefs.binanceRefreshToken = some er →
      decryptString ea = some access → decryptString er = none →
        LoadTokensFromPrefs base64Decode decryptString st =
          (false, { st with access_token_ := access })) := by
  refine ⟨?_, ?_, ?_⟩
  · intro h
    rcases h with h | h
    · cases hb : base64Decode st.prefs.binanceRefreshToken with
      | none => simp [LoadTokensFromPrefs, h, hb]
      | some er => simp [LoadTokensFromPrefs, h, hb]
    · cases ha : base64Decode st.prefs.binanceAccessToken with
      | none => simp [LoadTokensFromPrefs, h, ha]
      | some ea => simp [LoadTokensFromPrefs, h, ha]
  · intro ea er ha hb hd
    simp [LoadTokensFromPrefs, ha, hb, hd]
  · intro ea er access ha hb hda hdr
    simp [LoadTokensFromPrefs, ha, hb, hda, hdr]

/-- C4 counterexample: with both preferences decoding successfully, the
access ciphertext decrypting to "A" and the refresh ciphertext failing to
decrypt, the load fails but `access_token_` holds "A" rather than staying
empty. -/
theorem loadTokensFromPrefs_cex :
    (LoadTokensFromPrefs (fun s => some s)
        (fun s => if s = "EA" then some "A" else none)
        { prefs := { binanceAccessToken := "EA",
                     binanceRefreshToken := "ER" } }).1 = false ∧
    (LoadTokensFromPrefs (fun s => some s)
        (fun s => if s = "EA" then some "A" else none)
        { prefs := { binanceAccessToken := "EA",
                     binanceRefreshToken := "ER" } }).2.access_token_ = "A" := by
  constructor
  · rfl
  · rfl

/-- C4 witness: the amended refresh-decryption-failure branch at the same
concrete input. -/
theorem loadTokensFromPrefs_failure_spec_witness :
    LoadTokensFromPrefs (fun s => some s)
        (fun s => if s = "EA" then some "A" else none)
        { prefs := { binanceAccessToken := "EA",
                     binanceRefreshToken := "ER" } } =
      (false,
        { access_token_ := "A",
          prefs := { binanceAccessToken := "EA",
                     binanceRefreshToken := "ER" } }) :=
  (loadTokensFromPrefs_failure_spec (fun s => some s)
      (fun s => if s = "EA" then some "A" else none)
      { prefs := { binanceAccessToken := "EA",
                   binanceRefreshToken := "ER" } }).2.2
    "EA" "ER" "A" rfl rfl rfl rfl

/-- C5: if encryption of either token fails, `SetAccessTokens` returns
false and neither persisted preference value changes. -/
theorem setAccessTokens_error_atomic (encryptString : String → Option String)
    (access_token refresh_token : String) (st : State)
    (h : encryptString access_token = none ∨ encryptString refresh_token = none) :
    (SetAccessTokens encryptString access_token refresh_token st).1 = false ∧
    (SetAccessTokens encryptString access_token refresh_token st).2.prefs =
      st.prefs := by
  rcases h with h | h
  · simp [SetAccessTokens, h]
  · cases ha : encryptString access_token with
    | none => simp [SetAccessTokens, ha]
    | some ea => simp [SetAccessTokens, ha, h]

/-- C5 witness: with encryption failing outright, the call fails and the
preferences keep their prior values. -/
theorem setAccessTokens_error_atomic_witness :
    (SetAccessTokens (fun _ => none) "a" "b"
        { prefs := { binanceAccessToken := "oldA",
                     binanceRefreshToken := "oldR" } }).1 = false ∧
    (SetAccessTokens (fun _ => none) "a" "b"
        { prefs := { binanceAccessToken := "oldA",
                     binanceRefreshToken := "oldR" } }).2.prefs =
      ({ prefs := { binanceAccessToken := "oldA",
                    binanceRefreshToken := "oldR" } } : State).prefs :=
  setAccessTokens_error_atomic (fun _ => none) "a" "b"
    { prefs := { binanceAccessToken := "oldA",
                 binanceRefreshToken := "oldR" } } (Or.inl rfl)

/-- C9: on an encryption failure `SetAccessTokens` has already assigned the
new tokens to the in-memory fields, so the call returns false with the
in-memory fields holding the new values while the persisted preferences
still hold the old values. -/
theorem setAccessTokens_memory_diverges (encryptString : String → Option String)
    (access_token refresh_token : String) (st : State)
    (h : encryptString access_token = none ∨ encryptString refresh_token = none) :
    (SetAccessTokens encryptString access_token refresh_token st).1 = false ∧
    (SetAccessTokens encryptString access_token refresh_token st).2.access_token_ =
      access_token ∧
    (SetAccessTokens encryptString access_token refresh_token st).2.refresh_token_ =
      refresh_token ∧
    (SetAccessTokens encryptString access_token refresh_token st).2.prefs =
      st.prefs := by
  rcases h with h | h
  · simp [SetAccessTokens, h]
  · cases ha : encryptString access_token with
    | none => simp [SetAccessTokens, ha]
    | some ea => simp [SetAccessTokens, ha, h]

/-- C9 witness: failing encryption leaves the new tokens in memory and the
old encoded tokens in the preferences, the two now divergent. -/
theorem setAccessTokens_memory_diverges_witness :
    (SetAccessTokens (fun _ => none) "newA" "newR"
        { prefs := { binanceAccessToken := "oldA",
                     binanceRefreshToken := "oldR" } }).1 = false ∧
    (SetAccessTokens (fun _ => none) "newA" "newR"
        { prefs := { binanceAccessToken := "oldA",
                     binanceRefreshToken := "oldR" } }).2.access_token_ = "newA" ∧
    (SetAccessTokens (fun _ => none) "newA" "newR"
        { prefs := { binanceAccessToken := "oldA",
                     binanceRefreshToken := "oldR" } }).2.refresh_token_ = "newR" ∧
    (SetAccessTokens (fun _ => none) "newA" "newR"
        { prefs := { binanceAccessToken := "oldA",
                     binanceRefreshToken := "oldR" } }).2.prefs =
      ({ prefs := { binanceAccessToken := "oldA",
                    binanceRefreshToken := "oldR" } } : State).prefs :=
  setAccessTokens_memory_diverges (fun _ => none) "newA" "newR"
    { prefs := { binanceAccessToken := "oldA",
                 binanceRefreshToken := "oldR" } } (Or.inl rfl)

end BinanceService

namespace BinanceService

/-- C6: for every HTTP status outside [200,299], each REST completion
handler ignores the body and every possible parser (so the body is never
parsed) and yields the type-appropriate defaults: empty balances map with a
false flag, "0.00" price, "0" volume, empty quote fields, empty deposit
fields with a false flag, false conversion status with an empty message,
empty assets map, and an unchanged state with a false flag for revoke. -/
theorem restHandlers_non2xx_defaults (status : Int)
    (h : status < 200 ∨ 299 < status) (body : String) :
    (∀ parseBalances,
      OnGetAccountBalances parseBalances status body = ([], false)) ∧
    (∀ parsePrice, OnGetTickerPrice parsePrice status body = "0.00") ∧
    (∀ parseVolume, OnGetTickerVolume parseVolume status body = "0") ∧
    (∀ parseQuote, OnGetConvertQuote parseQuote status body = ("", "", "", "")) ∧
    (∀ parseDeposit, OnGetDepositInfo parseDeposit status body = ("", "", false)) ∧
    (∀ parseConfirm, OnConfirmConvert parseConfirm status body = (false, "")) ∧
    (∀ parseAssets, OnGetConvertAssets parseAssets status body = []) ∧
    (∀ parseRevoke encryptString st,
      OnRevokeToken parseRevoke encryptString status body st = (st, false)) := by
  have hn : ¬(200 ≤ status ∧ status ≤ 299) := by omega
  refine ⟨?_, ?_, ?_, ?_, ?_, ?_, ?_, ?_⟩
  · intro p; simp [OnGetAccountBalances, hn]
  · intro p; simp [OnGetTickerPrice, hn]
  · intro p; simp [OnGetTickerVolume, hn]
  · intro p; simp [OnGetConvertQuote, hn]
  · intro p; simp [OnGetDepositInfo, hn]
  · intro p; simp [OnConfirmConvert, hn]
  · intro p; simp [OnGetConvertAssets, hn]
  · intro p e st; simp [OnRevokeToken, hn]

/-- C6 witness: HTTP 404 with nontrivial parsers still yields every
default. -/
theorem restHandlers_non2xx_defaults_witness :
    OnGetAccountBalances (fun _ m => ("BTC", "1") :: m) 404 "body" = ([], false) ∧
    OnGetTickerPrice (fun _ _ => "9.99") 404 "body" = "0.00" ∧
    OnGetTickerVolume (fun _ _ => "7") 404 "body" = "0" ∧
    OnGetConvertQuote (fun _ _ => ("q", "p", "f", "t")) 404 "body" =
      ("", "", "", "") ∧
    OnGetDepositInfo (fun _ _ => ("addr", "url")) 404 "body" = ("", "", false) ∧
    OnConfirmConvert (fun _ _ => ("err", true)) 404 "body" = (false, "") ∧
    OnGetConvertAssets (fun _ m => ("BTC", ["ETH"]) :: m) 404 "body" = [] ∧
    OnRevokeToken (fun _ _ => true) (fun s => some s) 404 "body"
      { access_token_ := "tok" } = ({ access_token_ := "tok" }, false) := by
  have h := restHandlers_non2xx_defaults 404 (by decide) "body"
  exact ⟨h.1 _, h.2.1 _, h.2.2.1 _, h.2.2.2.1 _, h.2.2.2.2.1 _,
    h.2.2.2.2.2.1 _, h.2.2.2.2.2.2.1 _, h.2.2.2.2.2.2.2 _ _ _⟩

/-- C7 (amended): a successfully parsed revocation clears the in-memory
PKCE fields and both in-memory token fields to empty strings and, when
encryption of the empty string succeeds, writes the base64 encoding of that
encrypted empty string — not the empty string itself — into both token
preferences, reporting success to the callback. -/
theorem onRevokeToken_success_spec (parseRevoke : String → Bool → Bool)
    (encryptString : String → Option String) (status : Int) (body : String)
    (st : State) (cipher : String)
    (hs : 200 ≤ status ∧ status ≤ 299)
    (hp : parseRevoke body false = true)
    (he : encryptString "" = some cipher) :
    OnRevokeToken parseRevoke encryptString status body st =
      ({ access_token_ := "", refresh_token_ := "", code_challenge_ := "",
         code_verifier_ := "",
         prefs := { binanceAccessToken := Base64EncodeStr cipher,
                    binanceRefreshToken := Base64EncodeStr cipher } }, true) := by
  simp [OnRevokeToken, hs, hp, SetAccessTokens, he]

/-- C7 counterexample: with a successful revocation and the empty string
encrypting to the one-byte ciphertext "C", the persisted access-token
preference is "Qw==", not the empty string the claim asserts. -/
theorem onRevokeToken_cex :
    (OnRevokeToken (fun _ _ => true) (fun _ => some "C") 200 "" {}).2 = true ∧
    (OnRevokeToken (fun _ _ => true) (fun _ => some "C") 200 ""
      {}).1.prefs.binanceAccessToken = "Qw==" ∧
    (OnRevokeToken (fun _ _ => true) (fun _ => some "C") 200 ""
      {}).1.prefs.binanceAccessToken ≠ "" := by
  refine ⟨rfl, rfl, ?_⟩
  decide

/-- C7 witness: the amended claim at the same concrete revocation. -/
theorem onRevokeToken_success_spec_witness :
    OnRevokeToken (fun _ _ => true) (fun _ => some "C") 200 ""
      { access_token_ := "tokA", refresh_token_ := "tokR",
        code_challenge_ := "ch", code_verifier_ := "ver",
        prefs := { binanceAccessToken := "oldA",
                   binanceRefreshToken := "oldR" } } =
      ({ access_token_ := "", refresh_token_ := "", code_challenge_ := "",
         code_verifier_ := "",
         prefs := { binanceAccessToken := Base64EncodeStr "C",
                    binanceRefreshToken := Base64EncodeStr "C" } }, true) :=
  onRevokeToken_success_spec (fun _ _ => true) (fun _ => some "C") 200 ""
    { access_token_ := "tokA", refresh_token_ := "tokR",
      code_challenge_ := "ch", code_verifier_ := "ver",
      prefs := { binanceAccessToken := "oldA",
                 binanceRefreshToken := "oldR" } } "C"
    (by decide) rfl rfl

end BinanceService
